import Mathlib

/-!
Verification of the Good-GYM real-time pose-to-repetition pipeline.

Shallow embedding of:
  * `src/core/rtmpose_processor.py` (`RTMPoseProcessor`: `init_rtmpose`,
    `update_model`, `process_frame`, `get_exercise_angle`),
  * `src/app/video_processor.py` (`VideoProcessor`: `update_image`,
    `change_model`).

External capabilities (the `rtmlib.Wholebody` detector, OpenCV image
operations, the Qt thread/timer machinery, and the filesystem) are modelled
as explicit environment records or function parameters; their per-call
outcomes are inputs to the embedded functions.  Machine floats are modelled
as exact rationals, which is the reading the spec itself takes ("within
rounding tolerance").  Python code that can raise is embedded in
`Except PyErr`; `try/except` blocks are embedded by the corresponding
`match` on the wrapped result.
-/

namespace GoodGym

/-- Modelled from the spec: the repetition-counter stage (§4.4); the
implementation file `exercise_counters.py` is not under `src/`. -/
inductive Stage where
  | up
  | down
  | unknown
deriving DecidableEq, Repr

/-- Modelled from the spec: `CounterState` (§3) of the Repetition Counter —
a monotone count and the current stage.  The implementation file
`exercise_counters.py` is not under `src/`. -/
structure CState where
  counter : Nat
  stage : Stage
deriving DecidableEq, Repr

/-- Modelled from the spec: the reset state of the Repetition Counter
(count 0, stage unknown, §4.4). -/
def resetState : CState := ⟨0, Stage.unknown⟩

/-- Modelled from the spec: one tick of the Repetition Counter state
machine (§4.4).  An angle at or beyond `downT` enters the down band; an
angle at or below `upT` enters the up band, counting a rep exactly on the
`down → up` transition; angles in neither band leave the stage unchanged
(hysteresis dead zone); a missing angle is a no-op tick. -/
def counterStep (downT upT : ℚ) (s : CState) (angle : Option ℚ) : CState :=
  match angle with
  | none => s
  | some a =>
    if downT ≤ a then { s with stage := Stage.down }
    else if a ≤ upT then
      if s.stage = Stage.down then ⟨s.counter + 1, Stage.up⟩
      else { s with stage := Stage.up }
    else s

/-- Modelled from the spec: feeding a whole sequence of (valid) angles to
the Repetition Counter (§4.4). -/
def runCounter (downT upT : ℚ) (s : CState) (l : List ℚ) : CState :=
  l.foldl (fun st a => counterStep downT upT st (some a)) s

/-- 17 COCO keypoints, each an (x, y) position (`rtmpose_processor.py`
lines 82-89: identity mapping over COCO order). -/
abbrev KP := Fin 17 → ℚ × ℚ

/-- One detected person as returned by the external `rtmlib.Wholebody`
capability: 17 keypoints plus optional per-keypoint confidence scores
(`scores[0] if scores is not None else None`, line 124). -/
structure Person where
  kps : KP
  scores : Option (Fin 17 → ℚ)

/-- Outcome of the external detector call `self.wholebody(frame)` (line
118): it either raises, or returns the list of detected persons sorted by
confidence. -/
inductive DetectResult where
  | raises
  | ok (persons : List Person)

/-- An image frame: dimensions plus an opaque content tag (pixel data is
never inspected by the embedded code paths; OpenCV operations on content
are modelled as function parameters). -/
structure Frame where
  width : Nat
  height : Nat
  data : Nat
deriving DecidableEq, Repr

/-- Modelled from the spec: the interface of `ExerciseCounter`
(`exercise_counters.py`, not under `src/`) as used by
`get_exercise_angle`: each `count_*` method consumes the keypoints,
updates the counter state and returns the representative angle (or `none`
when keypoints are missing, §4.3-§4.4). -/
structure ExerciseCounter where
  count_squat : CState → KP → CState × Option ℚ
  count_pushup : CState → KP → CState × Option ℚ
  count_situp : CState → KP → CState × Option ℚ
  count_bicep_curl : CState → KP → CState × Option ℚ
  count_lateral_raise : CState → KP → CState × Option ℚ
  count_overhead_press : CState → KP → CState × Option ℚ
  count_leg_raise : CState → KP → CState × Option ℚ
  count_knee_raise : CState → KP → CState × Option ℚ
  count_knee_press : CState → KP → CState × Option ℚ

/-- `RTMPoseProcessor.get_exercise_angle` (`rtmpose_processor.py` lines
144-189): dispatch on the exercise-type string to exactly one `count_*`
call and, when an angle was produced, one fixed joint triple as the
`angle_point`.  The surrounding `try/except` only guards the external
counter calls, which are total here. -/
def get_exercise_angle (c : ExerciseCounter) (cs : CState) (kp : KP)
    (ty : String) : CState × Option ℚ × Option (List (ℚ × ℚ)) :=
  if ty = "squat" then
    let r := c.count_squat cs kp
    (r.1, r.2, r.2.map (fun _ => [kp 12, kp 14, kp 16]))
  else if ty = "pushup" then
    let r := c.count_pushup cs kp
    (r.1, r.2, r.2.map (fun _ => [kp 6, kp 8, kp 10]))
  else if ty = "situp" then
    let r := c.count_situp cs kp
    (r.1, r.2, r.2.map (fun _ => [kp 5, kp 11, kp 12]))
  else if ty = "bicep_curl" then
    let r := c.count_bicep_curl cs kp
    (r.1, r.2, r.2.map (fun _ => [kp 6, kp 8, kp 10]))
  else if ty = "lateral_raise" then
    let r := c.count_lateral_raise cs kp
    (r.1, r.2, r.2.map (fun _ => [kp 12, kp 6, kp 8]))
  else if ty = "overhead_press" then
    let r := c.count_overhead_press cs kp
    (r.1, r.2, r.2.map (fun _ => [kp 12, kp 6, kp 8]))
  else if ty = "leg_raise" then
    let r := c.count_leg_raise cs kp
    (r.1, r.2, r.2.map (fun _ => [kp 12, kp 14, kp 16]))
  else if ty = "knee_raise" then
    let r := c.count_knee_raise cs kp
    (r.1, r.2, r.2.map (fun _ => [kp 12, kp 14, kp 16]))
  else if ty = "knee_press" then
    let r := c.count_knee_press cs kp
    (r.1, r.2, r.2.map (fun _ => [kp 11, kp 13, kp 15]))
  else (cs, none, none)

/-- `self.conf_threshold = 0.5` (`rtmpose_processor.py` line 13). -/
def conf_threshold : ℚ := 1 / 2

/-- The resize factor computed by `process_frame` (lines 104-109):
`min(640/w, 640/h)` when a dimension exceeds 640, else `1.0`. -/
def computeScale (w h : Nat) : ℚ :=
  if 640 < w ∨ 640 < h then min (640 / (w : ℚ)) (640 / (h : ℚ)) else 1

/-- Confidence filtering (lines 127-129): keypoints whose score is not
strictly above `conf_threshold` are set to the sentinel `(0, 0)`; with no
scores the keypoints pass through unchanged. -/
def filterKps (p : Person) : KP :=
  match p.scores with
  | some sc => fun i => if conf_threshold < sc i then p.kps i else (0, 0)
  | none => p.kps

/-- Rescaling back to the original frame size (lines 132-133):
`keypoints = keypoints / scale_factor` performed only when
`scale_factor != 1.0`. -/
def rescaleKps (scale : ℚ) (k : KP) : KP :=
  if scale ≠ 1 then fun i => ((k i).1 / scale, (k i).2 / scale) else k

/-- `RTMPoseProcessor.process_frame` (lines 97-142).  The frame content
resize (`cv2.resize`) only affects what the external detector sees, which
is already summarised by the `det` input; the scale factor arithmetic is
embedded exactly.  The `try/except` around the detector call absorbs a
raising detector into the empty result.  Returns the updated counter
state (the Python code mutates `self.exercise_counter` through the
`count_*` calls), the angle, and the keypoints. -/
def process_frame (c : ExerciseCounter) (cs : CState) (frame : Frame)
    (det : DetectResult) (ty : String) : CState × Option ℚ × Option KP :=
  let scale := computeScale frame.width frame.height
  match det with
  | DetectResult.raises => (cs, none, none)
  | DetectResult.ok [] => (cs, none, none)
  | DetectResult.ok (p :: _) =>
    let k2 := rescaleKps scale (filterKps p)
    let r := get_exercise_angle c cs k2 ty
    (r.1, r.2.1, some k2)

/-- A constructed `rtmlib.Wholebody` model context: either built from
local ONNX files (`rtmpose_processor.py` lines 58-65) or by online
download (lines 72-76). -/
inductive Model where
  | localModel (det pose : String) (det_input pose_input : Nat × Nat)
  | onlineModel (mode : String)
deriving DecidableEq, Repr

/-- The `RTMPoseProcessor` fields relevant to the claims: the currently
held `self.wholebody` model (none before any successful load) and the
`self.show_skeleton` flag. -/
structure ProcState where
  wholebody : Option Model
  show_skeleton : Bool
deriving DecidableEq, Repr

/-- A raised Python exception, as observed by a caller. -/
structure PyErr where
  msg : String
deriving DecidableEq, Repr

/-- External environment of `init_rtmpose`: filesystem facts
(`os.path.exists`) and whether a given `Wholebody` construction succeeds
(keyed by pose-model path for local builds, by mode for online builds). -/
structure FsEnv where
  models_dir_exists : Bool
  file_exists : String → Bool
  local_ok : String → Bool
  online_ok : String → Bool

/-- `get_models_dir` in the development environment (line 30). -/
def models_dir : String := "./models"

/-- Detector ONNX file name (line 43). -/
def det_model_file : String := "yolox_nano_8xb8-300e_humanart-40f6f0d0.onnx"

/-- Pose model file for `lightweight` mode (line 47). -/
def pose_model_lightweight : String :=
  "rtmpose-t_simcc-body7_pt-body7_420e-256x192-026a1439_20230504.onnx"

/-- Pose model file for `performance` mode (line 50). -/
def pose_model_performance : String :=
  "rtmpose-m_simcc-body7_pt-body7_420e-256x192-e48f03d0_20230504.onnx"

/-- Pose model file for the `balanced` fallback branch (line 53). -/
def pose_model_balanced : String :=
  "rtmpose-s_simcc-body7_pt-body7_420e-256x192-acd4a1ef_20230504.onnx"

/-- `os.path.join` for the two-component paths used here. -/
def joinPath (a b : String) : String := a ++ "/" ++ b

/-- The mode-to-pose-model selection of `init_rtmpose` (lines 46-54):
`lightweight` and `performance` pick their files, every other string
falls into the `else: # balanced` branch. -/
def poseModelFor (mode : String) : String × (Nat × Nat) :=
  if mode = "lightweight" then (pose_model_lightweight, (192, 256))
  else if mode = "performance" then (pose_model_performance, (192, 256))
  else (pose_model_balanced, (192, 256))

/-- The external `Wholebody(det=..., pose=..., ...)` construction from
local files (lines 58-65); raises when the environment says so. -/
def wholebodyLocal (env : FsEnv) (det pose : String) (pose_input : Nat × Nat) :
    Except PyErr Model :=
  if env.local_ok pose then
    Except.ok (Model.localModel det pose (416, 416) pose_input)
  else Except.error ⟨"Wholebody construction failed"⟩

/-- The external `Wholebody(mode=..., ...)` online construction
(lines 72-76); raises when the environment says so. -/
def wholebodyOnline (env : FsEnv) (mode : String) : Except PyErr Model :=
  if env.online_ok mode then Except.ok (Model.onlineModel mode)
  else Except.error ⟨"Wholebody construction failed"⟩

/-- The body of the `try:` block of `init_rtmpose` (lines 36-77).  With the
models directory present but files incomplete, the code only prints and
constructs nothing (the online fallback sits in the `else` of the
directory check).  `self.wholebody` is assigned only after a successful
construction. -/
def init_rtmpose_try (env : FsEnv) (mode : String) (st : ProcState) :
    Except PyErr ProcState :=
  if env.models_dir_exists then
    let det := joinPath models_dir det_model_file
    let pm := poseModelFor mode
    let pose := joinPath models_dir pm.1
    if env.file_exists det && env.file_exists pose then
      (wholebodyLocal env det pose pm.2).map
        (fun m => { st with wholebody := some m })
    else
      Except.ok st
  else
    (wholebodyOnline env mode).map (fun m => { st with wholebody := some m })

/-- `RTMPoseProcessor.init_rtmpose` (lines 34-80): the whole body is
wrapped in `try/except Exception`, which prints the failure and returns
normally, leaving the state as it was at the raise point (no mutation
precedes the failed construction). -/
def init_rtmpose (env : FsEnv) (mode : String) (st : ProcState) :
    Except PyErr ProcState :=
  match init_rtmpose_try env mode st with
  | Except.ok st2 => Except.ok st2
  | Except.error _ => Except.ok st

/-- `RTMPoseProcessor.update_model` (lines 91-95): prints and delegates to
`init_rtmpose`. -/
def update_model (env : FsEnv) (mode : String) (st : ProcState) :
    Except PyErr ProcState :=
  init_rtmpose env mode st

/-- Specification of the branch on which `init_rtmpose` actually installs
a new model: directory and both files present with a succeeding local
construction, or no directory with a succeeding online construction. -/
def loadSucceeds (env : FsEnv) (mode : String) : Bool :=
  if env.models_dir_exists then
    env.file_exists (joinPath models_dir det_model_file) &&
      env.file_exists (joinPath models_dir (poseModelFor mode).1) &&
      env.local_ok (joinPath models_dir (poseModelFor mode).1)
  else
    env.online_ok mode

/-- Observable side effects of `VideoProcessor.change_model`
(`video_processor.py` lines 267-314). -/
inductive Action where
  | stopThread
  | showMessage (msg : String)
  | updateModel (mode : String)
  | setupThread
  | scheduleStart
deriving DecidableEq, Repr

/-- Outcomes of the two `setup_video_thread()` calls that `change_model`
may perform (`VideoThread` construction is external Qt machinery that may
raise): the first in the switch path, the second in the rollback path. -/
structure GuiEnv where
  setup_ok1 : Bool
  setup_ok2 : Bool
deriving DecidableEq, Repr

/-- The `main_window` fields read or written by `update_image` and
`change_model`. -/
structure MainState where
  model_mode : String
  proc : ProcState
  exercise_type : String
  counter : CState
  current_count : Nat
  is_resetting : Bool
  mirror_mode : Bool
  current_fps : ℚ
  video_running : Bool
  scheduled_start : Bool
deriving DecidableEq, Repr

/-- The rollback arm of `change_model` (lines 304-314): restore the old
mode label, reload the old model, rebuild the video thread and reschedule
the start; an exception anywhere in that inner `try` is absorbed into the
"Critical error" status message. -/
def change_model_rollback (env : FsEnv) (g : GuiEnv) (st : MainState)
    (old : String) (acts : List Action) : MainState × List Action :=
  let st2 := { st with model_mode := old }
  match update_model env old st2.proc with
  | Except.error _ =>
    (st2, acts ++ [Action.showMessage "Critical error in RTMPose mode switching"])
  | Except.ok p =>
    let st3 := { st2 with proc := p }
    let acts3 := acts ++ [Action.updateModel old]
    if g.setup_ok2 then
      ({ st3 with scheduled_start := true },
        acts3 ++ [Action.setupThread, Action.scheduleStart,
          Action.showMessage ("Rolled back to RTMPose " ++ old ++ " mode")])
    else
      (st3, acts3 ++
        [Action.showMessage "Critical error in RTMPose mode switching"])

/-- `VideoProcessor.change_model` (lines 267-314).  Same-mode requests
return before any effect; otherwise the video thread is stopped, the mode
label updated, the model reloaded (`update_model` cannot raise — its
callee swallows every exception), the thread rebuilt and a delayed start
scheduled; any exception escaping the `try` triggers the rollback arm. -/
def change_model (env : FsEnv) (g : GuiEnv) (st : MainState) (mode : String) :
    MainState × List Action :=
  if mode = st.model_mode then (st, [])
  else
    let old := st.model_mode
    let st1 := { st with video_running := false, model_mode := mode }
    let acts1 := [Action.stopThread,
      Action.showMessage ("Switching RTMPose mode to: " ++ mode ++ "...")]
    match update_model env mode st1.proc with
    | Except.error _ =>
      change_model_rollback env g st1 old
        (acts1 ++ [Action.showMessage "RTMPose mode switching failed"])
    | Except.ok p =>
      let st2 := { st1 with proc := p }
      let acts2 := acts1 ++ [Action.updateModel mode]
      if g.setup_ok1 then
        ({ st2 with scheduled_start := true },
          acts2 ++ [Action.setupThread, Action.scheduleStart,
            Action.showMessage ("Switched to RTMPose " ++ mode ++ " mode")])
      else
        change_model_rollback env g st2 old
          (acts2 ++ [Action.showMessage "RTMPose mode switching failed"])

/-- UI emissions of one `update_image` tick (`video_processor.py` lines
17-176): the displayed frame, the phase label, the count sounds and
milestone banner, and the counter label. -/
inductive UiEvent where
  | displayImage (f : Frame)
  | updatePhase (s : Stage)
  | playCountSound
  | playMilestone (n : Nat)
  | statusCongrats (n : Nat)
  | updateCounter (n : Nat)
deriving DecidableEq, Repr

/-- Predicate keeping every emission except the displayed frame. -/
def nonDisplay : UiEvent → Bool
  | UiEvent.displayImage _ => false
  | _ => true

/-- Result of one `update_image` tick: the updated window state, the UI
emissions in order, and the `(current_angle, keypoints)` pair handed to
`update_ui_components` (line 59). -/
structure TickOutput where
  state : MainState
  events : List UiEvent
  angle : Option ℚ
  kps : Option KP

/-- `VideoProcessor.update_image` (lines 17-62) together with
`update_ui_components` (lines 146-176).  `draw` stands for
`draw_skeleton_on_frame`, `flip` for `cv2.flip(_, 1)`, `cvt` for
`cv2.cvtColor(_, BGR2RGB)` — external image operations.  `inference` is
`main_window.current_inference_frame`; when it is still `None`,
`process_frame` raises on `frame.shape` and the outer `except` absorbs
the tick after `current_fps` was already updated. -/
def update_image (c : ExerciseCounter) (draw : Frame → KP → Frame)
    (flip cvt : Frame → Frame) (st : MainState) (frame : Frame)
    (inference : Option Frame) (det : DetectResult) (fps : ℚ) : TickOutput :=
  let st0 := { st with current_fps := fps }
  match inference with
  | none => ⟨st0, [], none, none⟩
  | some inf =>
    let r := process_frame c st0.counter inf det st0.exercise_type
    let cs2 := r.1
    let kps := r.2.2
    let display1 :=
      match kps with
      | some k =>
        if st0.proc.show_skeleton then
          let sx : ℚ := (frame.width : ℚ) / (inf.width : ℚ)
          let sy : ℚ := (frame.height : ℚ) / (inf.height : ℚ)
          draw frame (fun i => ((k i).1 * sx, (k i).2 * sy))
        else frame
      | none => frame
    let display2 := if st0.mirror_mode then flip display1 else display1
    let display3 := cvt display2
    let st1 := { st0 with counter := cs2 }
    let cc := cs2.counter
    let soundEvs :=
      if st1.current_count < cc ∧ st1.is_resetting = false then
        UiEvent.playCountSound ::
          (if cc % 10 = 0 then
            [UiEvent.playMilestone cc, UiEvent.statusCongrats cc]
          else [])
      else []
    let st2 :=
      if st1.current_count < cc ∧ st1.is_resetting = false then
        { st1 with current_count := cc }
      else st1
    ⟨st2,
      UiEvent.displayImage display3 :: UiEvent.updatePhase cs2.stage ::
        (soundEvs ++ [UiEvent.updateCounter cc]),
      r.2.1, kps⟩

/-! ## Helper lemmas -/

/-- Whenever the branch reached by `init_rtmpose` does not install a new
model, the whole call returns normally with an unchanged processor state:
the `try/except` swallows the construction failure. -/
lemma init_rtmpose_fail_noop (env : FsEnv) (mode : String) (st : ProcState)
    (h : loadSucceeds env mode = false) :
    init_rtmpose env mode st = Except.ok st := by
  unfold init_rtmpose init_rtmpose_try
  unfold loadSucceeds at h
  cases hd : env.models_dir_exists with
  | false =>
    rw [hd] at h
    simp only [Bool.false_eq_true, if_false] at h
    simp [hd, wholebodyOnline, h, Except.map]
  | true =>
    rw [hd] at h
    simp only [if_true] at h
    by_cases hf : (env.file_exists (joinPath models_dir det_model_file) &&
        env.file_exists (joinPath models_dir (poseModelFor mode).1)) = true
    · have hl : env.local_ok (joinPath models_dir (poseModelFor mode).1) = false := by
        rcases Bool.and_eq_true _ _ |>.mp hf with ⟨hx, hy⟩
        simpa [hx, hy] using h
      simp [hd, hf, wholebodyLocal, hl, Except.map]
    · simp [hd, hf]

/-- The scale factor is positive for frames with positive dimensions. -/
lemma computeScale_pos (w h : Nat) (hw : 0 < w) (hh : 0 < h) :
    0 < computeScale w h := by
  unfold computeScale
  split
  · exact lt_min (div_pos (by norm_num) (by exact_mod_cast hw))
      (div_pos (by norm_num) (by exact_mod_cast hh))
  · norm_num

/-! ## Claims -/

/-- C4: with down-threshold 160° and up-threshold 70°, starting from the
reset state, the angle sequence [175, 165, 80, 60, 170] yields count 1 and
final stage `down`; the state trajectory shows the single increment
happening exactly at the `down → up` transition (the 60° sample), with 80°
falling in the hysteresis dead zone. -/
theorem C4_squat_scenario :
    List.scanl (fun s a => counterStep 160 70 s (some a)) resetState
        [175, 165, 80, 60, 170] =
      [⟨0, Stage.unknown⟩, ⟨0, Stage.down⟩, ⟨0, Stage.down⟩, ⟨0, Stage.down⟩,
        ⟨1, Stage.up⟩, ⟨1, Stage.down⟩] ∧
    runCounter 160 70 resetState [175, 165, 80, 60, 170] = ⟨1, Stage.down⟩ := by
  constructor <;> decide

/-- C6: when the detector raises or finds no person, `process_frame`
returns normally with the empty result — angle `none`, keypoints `none` —
and the counter state untouched, so the per-tick loop can continue. -/
theorem C6_empty_result (c : ExerciseCounter) (cs : CState) (fr : Frame)
    (ty : String) :
    process_frame c cs fr DetectResult.raises ty = (cs, none, none) ∧
    process_frame c cs fr (DetectResult.ok []) ty = (cs, none, none) :=
  ⟨rfl, rfl⟩

/-- C8: for each of the nine exercise-type strings, `get_exercise_angle`
dispatches to exactly one counting function and one fixed ordered joint
triple (vertex in the middle), independent of the counter implementation,
its state, and the keypoint values: squat ↦ count_squat with (12, 14, 16),
pushup ↦ count_pushup with (6, 8, 10), situp ↦ count_situp with
(5, 11, 12), bicep_curl ↦ count_bicep_curl with (6, 8, 10),
lateral_raise ↦ count_lateral_raise with (12, 6, 8), overhead_press ↦
count_overhead_press with (12, 6, 8), leg_raise ↦ count_leg_raise with
(12, 14, 16), knee_raise ↦ count_knee_raise with (12, 14, 16),
knee_press ↦ count_knee_press with (11, 13, 15). -/
theorem C8_dispatch_table (c : ExerciseCounter) (cs : CState) (kp : KP) :
    get_exercise_angle c cs kp "squat" =
      ((c.count_squat cs kp).1, (c.count_squat cs kp).2,
        (c.count_squat cs kp).2.map (fun _ => [kp 12, kp 14, kp 16])) ∧
    get_exercise_angle c cs kp "pushup" =
      ((c.count_pushup cs kp).1, (c.count_pushup cs kp).2,
        (c.count_pushup cs kp).2.map (fun _ => [kp 6, kp 8, kp 10])) ∧
    get_exercise_angle c cs kp "situp" =
      ((c.count_situp cs kp).1, (c.count_situp cs kp).2,
        (c.count_situp cs kp).2.map (fun _ => [kp 5, kp 11, kp 12])) ∧
    get_exercise_angle c cs kp "bicep_curl" =
      ((c.count_bicep_curl cs kp).1, (c.count_bicep_curl cs kp).2,
        (c.count_bicep_curl cs kp).2.map (fun _ => [kp 6, kp 8, kp 10])) ∧
    get_exercise_angle c cs kp "lateral_raise" =
      ((c.count_lateral_raise cs kp).1, (c.count_lateral_raise cs kp).2,
        (c.count_lateral_raise cs kp).2.map (fun _ => [kp 12, kp 6, kp 8])) ∧
    get_exercise_angle c cs kp "overhead_press" =
      ((c.count_overhead_press cs kp).1, (c.count_overhead_press cs kp).2,
        (c.count_overhead_press cs kp).2.map (fun _ => [kp 12, kp 6, kp 8])) ∧
    get_exercise_angle c cs kp "leg_raise" =
      ((c.count_leg_raise cs kp).1, (c.count_leg_raise cs kp).2,
        (c.count_leg_raise cs kp).2.map (fun _ => [kp 12, kp 14, kp 16])) ∧
    get_exercise_angle c cs kp "knee_raise" =
      ((c.count_knee_raise cs kp).1, (c.count_knee_raise cs kp).2,
        (c.count_knee_raise cs kp).2.map (fun _ => [kp 12, kp 14, kp 16])) ∧
    get_exercise_angle c cs kp "knee_press" =
      ((c.count_knee_press cs kp).1, (c.count_knee_press cs kp).2,
        (c.count_knee_press cs kp).2.map (fun _ => [kp 11, kp 13, kp 15])) := by
  refine ⟨?_, ?_, ?_, ?_, ?_, ?_, ?_, ?_, ?_⟩ <;> rfl

/-- C9: requesting a switch to the mode that is already active returns
immediately: the state is unchanged (video thread not stopped, model not
reloaded, no field modified) and no effect is performed. -/
theorem C9_same_mode_noop (env : FsEnv) (g : GuiEnv) (st : MainState) :
    change_model env g st st.model_mode = (st, []) := by
  simp [change_model]

/-- C10: for any mode string other than "lightweight" and "performance" —
including strings outside the ModelMode enumeration — the pose-model
selection falls into the `else: # balanced` branch, and with the local
model files present (and the construction succeeding) `init_rtmpose`
installs the balanced weights and returns normally, raising no error. -/
theorem C10_invalid_mode_balanced (env : FsEnv) (st : ProcState)
    (mode : String)
    (h1 : mode ≠ "lightweight") (h2 : mode ≠ "performance")
    (h3 : env.models_dir_exists = true)
    (h4 : env.file_exists (joinPath models_dir det_model_file) = true)
    (h5 : env.file_exists (joinPath models_dir pose_model_balanced) = true)
    (h6 : env.local_ok (joinPath models_dir pose_model_balanced) = true) :
    poseModelFor mode = (pose_model_balanced, (192, 256)) ∧
    init_rtmpose env mode st =
      Except.ok { st with wholebody := some (Model.localModel
        (joinPath models_dir det_model_file)
        (joinPath models_dir pose_model_balanced) (416, 416) (192, 256)) } := by
  have hp : poseModelFor mode = (pose_model_balanced, (192, 256)) := by
    simp [poseModelFor, h1, h2]
  refine ⟨hp, ?_⟩
  unfold init_rtmpose init_rtmpose_try
  simp [h3, hp, h4, h5, wholebodyLocal, h6, Except.map]

/-- Witness for C10 at the concrete invalid mode string "turbo". -/
theorem C10_witness :
    ("turbo" ≠ "lightweight") ∧ ("turbo" ≠ "performance") ∧
    init_rtmpose ⟨true, fun _ => true, fun _ => true, fun _ => true⟩
        "turbo" ⟨none, true⟩ =
      Except.ok ⟨some (Model.localModel
        (joinPath models_dir det_model_file)
        (joinPath models_dir pose_model_balanced) (416, 416) (192, 256)),
        true⟩ :=
  ⟨by decide, by decide,
    (C10_invalid_mode_balanced ⟨true, fun _ => true, fun _ => true, fun _ => true⟩
      ⟨none, true⟩ "turbo" (by decide) (by decide) rfl rfl rfl rfl).2⟩

/-- An environment in which every model file is present but every
`Wholebody` construction raises. -/
def envFail : FsEnv := ⟨true, fun _ => true, fun _ => false, fun _ => false⟩

/-- A processor currently holding the balanced local model. -/
def stBalanced : ProcState :=
  ⟨some (Model.localModel (joinPath models_dir det_model_file)
    (joinPath models_dir pose_model_balanced) (416, 416) (192, 256)), true⟩

/-- C1 counterexample: a mode switch to "performance" whose model
construction fails.  The claim says the failure is reported to the caller
as a non-fatal ModelLoadError carrying the attempted and prior modes; in
the code `init_rtmpose` catches the exception, prints, and returns
normally — the result is `Except.ok` with the unchanged state, so no
error value of any kind reaches the caller. -/
theorem C1_counterexample :
    loadSucceeds envFail "performance" = false ∧
    init_rtmpose envFail "performance" stBalanced = Except.ok stBalanced :=
  ⟨rfl, rfl⟩

/-- C1 amended: whenever the attempted model load does not succeed, the
adapter does remain in its previously active working mode — `wholebody`
and hence the inference behaviour are unchanged — but the failure is not
reported to the caller: `init_rtmpose` swallows the exception and returns
normally with no error value. -/
theorem C1_rollback_without_report (env : FsEnv) (mode : String)
    (st : ProcState) (h : loadSucceeds env mode = false) :
    init_rtmpose env mode st = Except.ok st :=
  init_rtmpose_fail_noop env mode st h

/-- Witness for the amended C1 at the concrete mode "lightweight". -/
theorem C1_witness :
    loadSucceeds envFail "lightweight" = false ∧
    init_rtmpose envFail "lightweight" stBalanced = Except.ok stBalanced :=
  ⟨rfl, C1_rollback_without_report envFail "lightweight" stBalanced rfl⟩

/-- A pipeline state running the balanced model. -/
def stPipeline : MainState :=
  { model_mode := "balanced", proc := stBalanced, exercise_type := "squat",
    counter := resetState, current_count := 0, is_resetting := false,
    mirror_mode := true, current_fps := 0, video_running := true,
    scheduled_start := false }

/-- C7 counterexample: in an environment where both the new mode
("performance") and the previous mode ("balanced") fail to load, the
claim says the pipeline stops and surfaces a fatal RollbackFailure.  In
the code the load failures are swallowed inside `init_rtmpose`, so
`change_model` never reaches its exception handler: it completes the
normal switch path, reschedules the video start and reports success, with
the adapter still holding the old model but the mode label updated. -/
theorem C7_counterexample :
    loadSucceeds envFail "performance" = false ∧
    loadSucceeds envFail "balanced" = false ∧
    change_model envFail ⟨true, true⟩ stPipeline "performance" =
      ({ stPipeline with
          video_running := false
          model_mode := "performance"
          scheduled_start := true },
        [Action.stopThread,
          Action.showMessage "Switching RTMPose mode to: performance...",
          Action.updateModel "performance",
          Action.setupThread, Action.scheduleStart,
          Action.showMessage "Switched to RTMPose performance mode"]) := by
  refine ⟨rfl, rfl, ?_⟩
  decide

/-- C7 amended: when both the new and the previous model would fail to
load during a mode switch, no fatal failure is surfaced and the pipeline
is not stopped: the load failures are absorbed inside `init_rtmpose`,
`change_model` completes its normal path (never entering the rollback
handler), schedules the video restart and reports success, while the
adapter keeps whatever model it had and only the mode label changes. -/
theorem C7_both_fail_continues (env : FsEnv) (g : GuiEnv) (st : MainState)
    (mode : String) (h0 : mode ≠ st.model_mode)
    (h1 : loadSucceeds env mode = false)
    (h2 : loadSucceeds env st.model_mode = false)
    (h3 : g.setup_ok1 = true) :
    change_model env g st mode =
      ({ st with
          video_running := false
          model_mode := mode
          scheduled_start := true },
        [Action.stopThread,
          Action.showMessage ("Switching RTMPose mode to: " ++ mode ++ "..."),
          Action.updateModel mode,
          Action.setupThread, Action.scheduleStart,
          Action.showMessage ("Switched to RTMPose " ++ mode ++ " mode")]) := by
  have hup : update_model env mode st.proc = Except.ok st.proc :=
    init_rtmpose_fail_noop env mode st.proc h1
  unfold change_model
  rw [if_neg h0]
  simp only [hup, h3, if_true]
  rfl

/-- Witness for the amended C7 at the concrete mode "lightweight". -/
theorem C7_witness :
    ("lightweight" ≠ stPipeline.model_mode) ∧
    loadSucceeds envFail "lightweight" = false ∧
    loadSucceeds envFail stPipeline.model_mode = false ∧
    change_model envFail ⟨true, true⟩ stPipeline "lightweight" =
      ({ stPipeline with
          video_running := false
          model_mode := "lightweight"
          scheduled_start := true },
        [Action.stopThread,
          Action.showMessage "Switching RTMPose mode to: lightweight...",
          Action.updateModel "lightweight",
          Action.setupThread, Action.scheduleStart,
          Action.showMessage "Switched to RTMPose lightweight mode"]) :=
  ⟨by decide, rfl, rfl,
    C7_both_fail_continues envFail ⟨true, true⟩ stPipeline "lightweight"
      (by decide) rfl rfl rfl⟩

/-- C2: `process_frame` on a frame with a dimension above 640 px uses the
aspect-preserving scale `min(640/w, 640/h)` and divides every returned
keypoint coordinate by it; on a frame with both dimensions at most 640 the
scale is 1 and coordinates pass through unscaled.  Consequently, when the
detector reports positions that are the original-frame positions `orig`
multiplied by the scale (the exact-rational model of the resize), the
returned keypoints reproduce `orig` exactly. -/
theorem C2_scale_roundtrip (c : ExerciseCounter) (cs : CState) (ty : String)
    (rest : List Person) (w h d : Nat) (p : Person) (orig : KP)
    (hw : 0 < w) (hh : 0 < h)
    (hp : ∀ i, filterKps p i =
      ((orig i).1 * computeScale w h, (orig i).2 * computeScale w h)) :
    ((640 < w ∨ 640 < h) →
      computeScale w h = min (640 / (w : ℚ)) (640 / (h : ℚ))) ∧
    (w ≤ 640 ∧ h ≤ 640 → computeScale w h = 1) ∧
    (process_frame c cs ⟨w, h, d⟩ (DetectResult.ok (p :: rest)) ty).2.2 =
      some (rescaleKps (computeScale w h) (filterKps p)) ∧
    (process_frame c cs ⟨w, h, d⟩ (DetectResult.ok (p :: rest)) ty).2.2 =
      some orig := by
  have hpos := computeScale_pos w h hw hh
  have heq : rescaleKps (computeScale w h) (filterKps p) = orig := by
    funext i
    by_cases hs : computeScale w h = 1
    · rw [rescaleKps, if_neg (not_not_intro hs), hp i, hs]
      simp
    · rw [rescaleKps, if_pos hs]
      rw [hp i]
      simp only
      rw [mul_div_cancel_right₀ _ (ne_of_gt hpos),
        mul_div_cancel_right₀ _ (ne_of_gt hpos)]
  refine ⟨fun hgt => by rw [computeScale, if_pos hgt], fun hle => ?_, rfl, ?_⟩
  · have hnot : ¬(640 < w ∨ 640 < h) := by omega
    rw [computeScale, if_neg hnot]
  · show some (rescaleKps (computeScale w h) (filterKps p)) = some orig
    rw [heq]

/-- A counter implementation that records nothing: enough to witness the
frame-geometry claims, which hold for every counter. -/
def trivCounter : ExerciseCounter :=
  ⟨fun cs _ => (cs, none), fun cs _ => (cs, none), fun cs _ => (cs, none),
    fun cs _ => (cs, none), fun cs _ => (cs, none), fun cs _ => (cs, none),
    fun cs _ => (cs, none), fun cs _ => (cs, none), fun cs _ => (cs, none)⟩

/-- A detection whose keypoints sit at the half-scale positions of
`origC2` (1280×720 frame, scale 1/2), with no score array. -/
def personC2 : Person := ⟨fun _ => (50, 25), none⟩

/-- The original-frame keypoint positions for the C2 witness. -/
def origC2 : KP := fun _ => (100, 50)

/-- On a 1280×720 frame the resize factor is exactly 1/2. -/
lemma computeScale_1280_720 : computeScale 1280 720 = 1 / 2 := by
  rw [computeScale, if_pos (Or.inl (by norm_num))]
  have h1 : ((1280 : Nat) : ℚ) = 1280 := by norm_num
  have h2 : ((720 : Nat) : ℚ) = 720 := by norm_num
  rw [h1, h2, min_eq_left (by norm_num)]
  norm_num

/-- Witness for C2 on a 1280×720 frame: scale 1/2, and the returned
keypoints are the original coordinates. -/
theorem C2_witness :
    0 < 1280 ∧ 0 < 720 ∧
    (process_frame trivCounter resetState ⟨1280, 720, 0⟩
        (DetectResult.ok [personC2]) "squat").2.2 = some origC2 :=
  ⟨by decide, by decide,
    (C2_scale_roundtrip trivCounter resetState "squat" [] 1280 720 0 personC2
      origC2 (by decide) (by decide)
      (by
        intro i
        rw [computeScale_1280_720]
        show ((50 : ℚ), (25 : ℚ)) = ((100 : ℚ) * (1 / 2), (50 : ℚ) * (1 / 2))
        norm_num)).2.2.2⟩

/-- C3: a keypoint whose confidence score is below the 0.5 threshold is
normalised to the sentinel (0, 0) in the filtered array, the sentinel is
preserved by the rescaling to original-frame coordinates, the returned
keypoint array is exactly that rescaled filtered array, and the angle is
computed by `get_exercise_angle` from that same sentinel-normalised
array — so no sub-threshold keypoint position ever reaches an angle
computation. -/
theorem C3_sentinel_zeroing (c : ExerciseCounter) (cs : CState) (ty : String)
    (w h d : Nat) (p : Person) (rest : List Person) (sc : Fin 17 → ℚ)
    (i : Fin 17) (hs : p.scores = some sc) (hlow : sc i < conf_threshold) :
    filterKps p i = (0, 0) ∧
    rescaleKps (computeScale w h) (filterKps p) i = (0, 0) ∧
    (process_frame c cs ⟨w, h, d⟩ (DetectResult.ok (p :: rest)) ty).2.2 =
      some (rescaleKps (computeScale w h) (filterKps p)) ∧
    (process_frame c cs ⟨w, h, d⟩ (DetectResult.ok (p :: rest)) ty).2.1 =
      (get_exercise_angle c cs
        (rescaleKps (computeScale w h) (filterKps p)) ty).2.1 := by
  have h1 : filterKps p i = (0, 0) := by
    have hfk : filterKps p =
        fun j => if conf_threshold < sc j then p.kps j else (0, 0) := by
      unfold filterKps
      rw [hs]
    rw [hfk]
    exact if_neg (not_lt.mpr hlow.le)
  refine ⟨h1, ?_, rfl, rfl⟩
  rw [rescaleKps]
  split
  · show ((filterKps p i).1 / computeScale w h,
      (filterKps p i).2 / computeScale w h) = (0, 0)
    rw [h1]
    simp
  · exact h1

/-- A detection with all scores zero, below the 0.5 threshold. -/
def personC3 : Person := ⟨fun _ => (33, 44), some (fun _ => 0)⟩

/-- Witness for C3: the zero-score keypoint 0 of `personC3` comes out as
the sentinel both before and after rescaling. -/
theorem C3_witness :
    personC3.scores = some (fun _ => (0 : ℚ)) ∧
    (0 : ℚ) < conf_threshold ∧
    filterKps personC3 0 = (0, 0) ∧
    rescaleKps (computeScale 1280 720) (filterKps personC3) 0 = (0, 0) :=
  ⟨rfl, by norm_num [conf_threshold],
    (C3_sentinel_zeroing trivCounter resetState "squat" 1280 720 0 personC3 []
      (fun _ => 0) 0 rfl (by norm_num [conf_threshold])).1,
    (C3_sentinel_zeroing trivCounter resetState "squat" 1280 720 0 personC3 []
      (fun _ => 0) 0 rfl (by norm_num [conf_threshold])).2.1⟩

/-- C5: two `update_image` ticks that differ only in the mirror flag
produce the same angle, keypoints, stage and count: the resulting states
agree on every field except the mirror flag itself, the UI emissions agree
except for the displayed frame, and the `(angle, keypoints)` pair handed
to the UI update is identical — mirroring touches only the emitted display
frame, after pose processing. -/
theorem C5_mirror_only_display (c : ExerciseCounter) (draw : Frame → KP → Frame)
    (flip cvt : Frame → Frame) (st : MainState) (frame : Frame)
    (inference : Option Frame) (det : DetectResult) (fps : ℚ) :
    (update_image c draw flip cvt { st with mirror_mode := true } frame
        inference det fps).state =
      { (update_image c draw flip cvt { st with mirror_mode := false } frame
          inference det fps).state with mirror_mode := true } ∧
    (update_image c draw flip cvt { st with mirror_mode := true } frame
        inference det fps).events.filter nonDisplay =
      (update_image c draw flip cvt { st with mirror_mode := false } frame
        inference det fps).events.filter nonDisplay ∧
    (update_image c draw flip cvt { st with mirror_mode := true } frame
        inference det fps).angle =
      (update_image c draw flip cvt { st with mirror_mode := false } frame
        inference det fps).angle ∧
    (update_image c draw flip cvt { st with mirror_mode := true } frame
        inference det fps).kps =
      (update_image c draw flip cvt { st with mirror_mode := false } frame
        inference det fps).kps := by
  cases inference with
  | none => exact ⟨rfl, rfl, rfl, rfl⟩
  | some inf =>
    have hsplit : ∀ (C : Prop) [Decidable C] (A B : MainState),
        ({ (if C then A else B) with mirror_mode := true } : MainState) =
          if C then { A with mirror_mode := true }
          else { B with mirror_mode := true } := by
      intro C hD A B
      split <;> rfl
    refine ⟨?_, rfl, rfl, rfl⟩
    show (update_image c draw flip cvt { st with mirror_mode := true } frame
        (some inf) det fps).state = _
    simp only [update_image]
    rw [hsplit]

end GoodGym
